import Mathlib

/-!
Shallow embedding of the AI-Powered-Excel-Mock-Interviewer repository
(src/questions_storage.py, src/questions_agent.py,
src/evaluator_and_Report_Generator.py, src/interview_orchestrator.py),
with theorems settling the frozen claims about it.

Modelling conventions.  Numeric scores are modelled as rationals; the
Python float arithmetic on the inputs relevant here (sums, means, the
weighted effectiveness formula) is carried out exactly.  Wall-clock
timestamp fields (created_date, performance-history timestamps, session
start/pause/resume/end times and the derived durations) and the
time-and-random interview id are environment-dependent and carry no
claim-relevant information; they are omitted from the records.  Python
code that raises an exception on some input (division by zero, a call to
a missing attribute) is modelled with Option: none is the raised
exception.
-/

/-- One entry of the performance_history of a question record
(questions_storage.py, update_question_performance): the recorded score
and the optional hire outcome.  The wall-clock timestamp is omitted. -/
structure PerfRecord where
  score : ℚ
  outcome : Option String
deriving DecidableEq

/-- A question record as kept by QuestionStorageAgent
(questions_storage.py) and as produced by QuestionGeneratorAgent
(questions_agent.py).  The Python dict key "type" is rendered as
questionType.  The follow_up flag marks a follow-up question produced in
place of advancing (see generate_follow_up_question below); catalog and
generated questions have it false. -/
structure Question where
  id : ℕ
  question : String
  questionType : String
  category : String
  difficulty : String
  keywords : List String
  target_roles : List String
  usage_count : ℕ
  avg_score : ℚ
  success_rate : ℚ
  effectiveness_score : ℚ
  performance_history : List PerfRecord
  generated : Bool
  follow_up : Bool := false
deriving DecidableEq

/-- QuestionStorageAgent._calculate_effectiveness (questions_storage.py
lines 186-203).  Every stored record carries a success_rate key (seeds
and store_question initialise it and update preserves it), so the Python
question.get with default 0.5 is a plain field read here.  The decimal
weights 0.5, 0.4, 0.3, 1.0 of the source are written as the exact
rationals 1/2, 2/5, 3/10, 1. -/
def calculate_effectiveness (question : Question) : ℚ :=
  if question.usage_count < 3 then 1/2
  else
    let score_variance := |question.avg_score - 70| / 30
    let usage_factor := min ((question.usage_count : ℚ) / 50) 1
    let success_correlation := question.success_rate
    let effectiveness :=
      score_variance * (2/5) + usage_factor * (3/10) + success_correlation * (3/10)
    min (max effectiveness 0) 1

/-- The body of the update loop of
QuestionStorageAgent.update_question_performance (questions_storage.py
lines 155-184), applied to the question record whose id matched: bump
usage_count, recompute the incremental mean, update success_rate only
when an outcome is supplied, append a history entry, then recompute
effectiveness_score from the updated record. -/
def apply_performance_update (question : Question) (score : ℚ)
    (outcome : Option String) : Question :=
  let usage_count := question.usage_count + 1
  let count : ℚ := usage_count
  let avg_score := (question.avg_score * (count - 1) + score) / count
  let success_rate :=
    if outcome = some "hired" then (question.success_rate * (count - 1) + 1) / count
    else if outcome = some "not_hired" then question.success_rate * (count - 1) / count
    else question.success_rate
  let q1 := { question with
    usage_count := usage_count
    avg_score := avg_score
    success_rate := success_rate
    performance_history := question.performance_history ++ [PerfRecord.mk score outcome] }
  { q1 with effectiveness_score := calculate_effectiveness q1 }

/-- QuestionStorageAgent.update_question_performance on the stored
question list: the Python for-loop updates the first record whose id
matches and breaks; an unknown id is a silent no-op. -/
def update_question_performance (questions : List Question) (question_id : ℕ)
    (score : ℚ) (outcome : Option String) : List Question :=
  match questions with
  | [] => []
  | q :: rest =>
    if q.id = question_id then apply_performance_update q score outcome :: rest
    else q :: update_question_performance rest question_id score outcome

/-- Per-difficulty question targets. -/
structure DifficultyDistribution where
  basic : ℕ
  intermediate : ℕ
  advanced : ℕ
deriving DecidableEq

/-- The difficulty_distribution dict computed inside
QuestionGeneratorAgent.generate_interview_questions (questions_agent.py
lines 80-84): count // 3 per tier, plus 1 to basic when count % 3 > 0
and plus 1 to intermediate when count % 3 > 1.  The subsequent random
template filling does not alter these targets. -/
def difficulty_distribution (count : ℕ) : DifficultyDistribution :=
  { basic := count / 3 + (if count % 3 > 0 then 1 else 0)
    intermediate := count / 3 + (if count % 3 > 1 then 1 else 0)
    advanced := count / 3 }

/-! ### Python string primitives

The built-in Lean String functions are position-based loops that the kernel
cannot evaluate, so the Python string operations used by the evaluator
(str.split(), substring membership, str.lower(), line splitting, digit
extraction, slicing) are modelled structurally on the underlying
character lists. -/

/-- Does the first list start with the second one? -/
def starts_with : List Char → List Char → Bool
  | _, [] => true
  | [], _ :: _ => false
  | c :: cs, d :: ds => c == d && starts_with cs ds

/-- Python substring membership `needle in haystack` on character lists
(for the non-empty needles used in the source). -/
def contains_sub : List Char → List Char → Bool
  | [], needle => starts_with [] needle
  | c :: t, needle => starts_with (c :: t) needle || contains_sub t needle

/-- Python `needle in haystack` on strings. -/
def py_contains (haystack needle : String) : Bool :=
  contains_sub haystack.data needle.data

/-- Python str.lower() (ASCII content in this code base). -/
def py_lower (s : String) : List Char := s.data.map Char.toLower

/-- Case-insensitive Python membership `needle.lower() in haystack.lower()`. -/
def py_contains_ci (haystack needle : String) : Bool :=
  contains_sub (py_lower haystack) (py_lower needle)

/-- Helper for py_word_count: the flag records whether the previous
character was inside a word. -/
def count_words_aux : Bool → List Char → ℕ
  | _, [] => 0
  | inw, c :: t =>
    if c.isWhitespace then count_words_aux false t
    else (if inw then 0 else 1) + count_words_aux true t

/-- Python `len(s.split())`: the number of maximal whitespace-free runs. -/
def py_word_count (s : String) : ℕ := count_words_aux false s.data

/-- Python `len(s.strip())`: the character count after trimming
whitespace at both ends. -/
def py_strip_length (s : String) : ℕ :=
  ((s.data.dropWhile Char.isWhitespace).reverse.dropWhile Char.isWhitespace).length

/-- Python `s.split("\n")` on character lists. -/
def split_lines : List Char → List (List Char)
  | [] => [[]]
  | c :: t =>
    if c = '\n' then [] :: split_lines t
    else
      match split_lines t with
      | [] => [[c]]
      | l :: ls => (c :: l) :: ls

/-- The first maximal digit run of a character list, as matched by the
regular expression d+ in re.findall (none when the list holds no digit). -/
def first_digit_run : List Char → Option (List Char)
  | [] => none
  | c :: t =>
    if c.isDigit then some (c :: t.takeWhile Char.isDigit)
    else first_digit_run t

/-- Decimal value of a digit run (int() of the matched text). -/
def digits_to_nat (ds : List Char) : ℕ :=
  ds.foldl (fun n c => 10 * n + (c.toNat - 48)) 0

/-! ### Evaluator (src/evaluator_and_Report_Generator.py) -/

/-- The evaluation record produced by AIAnswerReviewer.review_answer and
its helpers (evaluator_and_Report_Generator.py). -/
structure AiEval where
  score : ℚ
  technical_accuracy : ℚ
  depth : ℚ
  practical_application : ℚ
  strengths : List String
  improvements : List String
  overall_feedback : String
  evaluation_source : String
deriving DecidableEq

/-- A decoded JSON object extracted from the oracle text by
_parse_ai_evaluation (regex match plus json.loads): each expected key is
either present with its value or absent. -/
structure ParsedJson where
  score : Option ℚ := none
  technical_accuracy : Option ℚ := none
  depth : Option ℚ := none
  practical_application : Option ℚ := none
  strengths : Option (List String) := none
  improvements : Option (List String) := none
  overall_feedback : Option String := none
deriving DecidableEq

/-- Outcome of one scoring-oracle call, the tagged result the three
Evaluator paths dispatch on: the call returned text containing a
decodable JSON object, the call returned text without one (no regex
match, or json.loads raised), or the call itself raised. -/
inductive OracleOutcome where
  | jsonObject (j : ParsedJson)
  | plainText (t : String)
  | callFailure (error : String)
deriving DecidableEq

/-- AIAnswerReviewer._parse_ai_evaluation (lines 86-108), successful
branch: the decoded JSON fields are taken verbatim, each replaced by its
fixed default only when the key is absent.  No range check or clamp is
applied to any numeric field. -/
def parse_ai_evaluation (j : ParsedJson) : AiEval :=
  { score := j.score.getD 50
    technical_accuracy := j.technical_accuracy.getD 50
    depth := j.depth.getD 50
    practical_application := j.practical_application.getD 50
    strengths := j.strengths.getD []
    improvements := j.improvements.getD []
    overall_feedback := j.overall_feedback.getD "Response evaluated"
    evaluation_source := "AI" }

/-- The score scan of AIAnswerReviewer._parse_text_response (lines
110-119): the first line containing "score" (case-insensitively) or
"/100" and holding a number yields min(first number, 100); default 70. -/
def parse_text_score : List (List Char) → ℕ
  | [] => 70
  | line :: rest =>
    if contains_sub (line.map Char.toLower) "score".data || contains_sub line "/100".data then
      match first_digit_run line with
      | some ds => min (digits_to_nat ds) 100
      | none => parse_text_score rest
    else parse_text_score rest

/-- AIAnswerReviewer._parse_text_response (lines 110-130): fallback when
the oracle output is not JSON. -/
def parse_text_response (response : String) : AiEval :=
  let score : ℚ := parse_text_score (split_lines response.data)
  { score := score
    technical_accuracy := score
    depth := max (score - 10) 0
    practical_application := max (score - 5) 0
    strengths := ["AI provided feedback"]
    improvements := ["See detailed feedback below"]
    overall_feedback :=
      if response.data.length > 200 then ⟨response.data.take 200⟩ ++ "..." else response
    evaluation_source := "AI_Text" }

/-- The fixed function-name vocabulary of _fallback_evaluation. -/
def excel_functions : List String :=
  ["SUM", "AVERAGE", "VLOOKUP", "IF", "COUNT", "PIVOT", "INDEX", "MATCH"]

/-- AIAnswerReviewer._fallback_evaluation (lines 132-160): the fully
local heuristic used when the oracle call raises.  The question argument
is accepted but unused, as in the source. -/
def fallback_evaluation (question : Question) (response : String) (error : String) : AiEval :=
  let score : ℚ := 40
  let words := py_word_count response
  let score := score +
    (if words > 30 then 25 else if words > 15 then 15 else if words > 5 then 10 else 0)
  let found_functions := excel_functions.filter (fun func => py_contains_ci response func)
  let score := score + (if found_functions.isEmpty then 0 else 20)
  let score := score + (if py_contains response "=" || py_contains response "()" then 15 else 0)
  { score := min score 100
    technical_accuracy := min score 100
    depth := max (score - 10) 0
    practical_application := max (score - 5) 0
    strengths := ["Response provided"] ++
      (if found_functions.isEmpty then []
       else ["Mentioned: " ++ String.intercalate ", " (found_functions.take 2)])
    improvements := ["Could provide more detail", "Add specific Excel function examples"]
    overall_feedback := "Fallback evaluation (Gemini API error: " ++ ⟨error.data.take 50⟩ ++ "...)"
    evaluation_source := "Fallback" }

/-- AIAnswerReviewer.review_answer (lines 21-35): dispatch on the oracle
outcome; a raised call is recovered by the local fallback. -/
def review_answer (question : Question) (response : String) (oracle : OracleOutcome) : AiEval :=
  match oracle with
  | .jsonObject j => parse_ai_evaluation j
  | .plainText t => parse_text_response t
  | .callFailure error => fallback_evaluation question response error

/-- The response_length metadata added by
HybridEvaluator.evaluate_comprehensive. -/
structure ResponseLength where
  words : ℕ
  characters : ℕ
  quality : String
deriving DecidableEq

/-- The comprehensive evaluation record appended to a session:
the reviewer fields plus response-length metadata and the question id.
The timestamp field is omitted (wall clock). -/
structure Evaluation where
  score : ℚ
  technical_accuracy : ℚ
  depth : ℚ
  practical_application : ℚ
  strengths : List String
  improvements : List String
  overall_feedback : String
  evaluation_source : String
  response_length : ResponseLength
  question_id : ℕ
deriving DecidableEq

/-- HybridEvaluator.evaluate_comprehensive (lines 170-185). -/
def evaluate_comprehensive (question : Question) (response : String)
    (oracle : OracleOutcome) : Evaluation :=
  let ai_eval := review_answer question response oracle
  let word_count := py_word_count response
  let char_count := py_strip_length response
  { score := ai_eval.score
    technical_accuracy := ai_eval.technical_accuracy
    depth := ai_eval.depth
    practical_application := ai_eval.practical_application
    strengths := ai_eval.strengths
    improvements := ai_eval.improvements
    overall_feedback := ai_eval.overall_feedback
    evaluation_source := ai_eval.evaluation_source
    response_length :=
      { words := word_count
        characters := char_count
        quality :=
          if word_count > 20 then "detailed"
          else if word_count > 5 then "brief" else "minimal" }
    question_id := question.id }

/-! ### Report generator (src/evaluator_and_Report_Generator.py) -/

/-- Python round() to the nearest integer with ties to even, on exact
rationals (the rule used for round(x, n) and the :.0f format). -/
def py_round_half_even (x : ℚ) : ℤ :=
  let f := ⌊x⌋
  let r := x - f
  if r < 1/2 then f
  else if 1/2 < r then f + 1
  else if f % 2 = 0 then f else f + 1

/-- Python round(x, 1) on exact rationals. -/
def py_round1 (x : ℚ) : ℚ := (py_round_half_even (10 * x) : ℚ) / 10

/-- The minimum_score entry of InterviewReportGenerator.hiring_thresholds
for a role, with the dict-lookup default 70 for unknown roles (lines
192-197 and 254).  The critical_skills entries of that dict are never
read by the source and are not modelled. -/
def hiring_thresholds (role : String) : ℚ :=
  if role = "finance" then 75
  else if role = "operations" then 70
  else if role = "data_analytics" then 80
  else 70

/-- The decision triple of _make_hiring_decision. -/
structure HiringDecision where
  decision : String
  confidence : String
  meets_threshold : Bool
deriving DecidableEq

/-- The mean of the score fields (sum(...) / len(...) over a non-empty
list; on the empty list the Python expression raises, and the callers
below guard it). -/
def avg_of (evaluations : List Evaluation) : ℚ :=
  (evaluations.map Evaluation.score).sum / evaluations.length

/-- InterviewReportGenerator._make_hiring_decision (lines 253-269). -/
def make_hiring_decision (avg_score : ℚ) (role : String)
    (evaluations : List Evaluation) : HiringDecision :=
  let threshold := hiring_thresholds role
  let dc : String × String :=
    if avg_score ≥ 85 then ("STRONG HIRE", "High")
    else if avg_score ≥ threshold then ("CONDITIONAL HIRE", "Medium")
    else if avg_score ≥ 50 then ("NO HIRE - TRAINING REQUIRED", "High")
    else ("REJECT", "High")
  let critical_failures := (evaluations.filter (fun e => e.score < 30)).length
  let dc := if critical_failures > evaluations.length / 2 then ("REJECT", "High") else dc
  { decision := dc.1, confidence := dc.2, meets_threshold := decide (avg_score ≥ threshold) }

/-- The four fixed skill tags of _assess_critical_skills, each set to the
same tier. -/
structure SkillsBreakdown where
  formula_knowledge : String
  data_manipulation : String
  analytical_thinking : String
  attention_to_detail : String
deriving DecidableEq

/-- InterviewReportGenerator._assess_critical_skills (lines 271-280).
The body divides by len(evaluations); on the empty list the Python code
raises ZeroDivisionError, modelled as none. -/
def assess_critical_skills (evaluations : List Evaluation) : Option SkillsBreakdown :=
  if evaluations.isEmpty then none
  else
    let total_score := avg_of evaluations
    let tier :=
      if total_score ≥ 80 then "STRONG"
      else if total_score ≥ 60 then "ADEQUATE"
      else "WEAK"
    some { formula_knowledge := tier, data_manipulation := tier,
           analytical_thinking := tier, attention_to_detail := tier }

/-- InterviewReportGenerator._identify_critical_gaps (lines 282-299).
It also divides by len(evaluations); its only call site passes a
non-empty list, and the empty list is modelled as none. -/
def identify_critical_gaps (evaluations : List Evaluation) (role : String) :
    Option (List String) :=
  if evaluations.isEmpty then none
  else
    let avg_score := avg_of evaluations
    let gaps : List String :=
      (if avg_score < 30 then ["CRITICAL: Lacks basic Excel formula knowledge"] else []) ++
      (if avg_score < 50 then ["MAJOR: Cannot perform essential Excel functions"] else []) ++
      (if (evaluations.filter (fun e => e.score < 40)).length > 2 then
        ["PATTERN: Consistent poor performance across multiple areas"] else []) ++
      (if role = "finance" ∧ avg_score < 70 then
        ["FINANCE CRITICAL: Insufficient Excel skills for financial analysis"]
       else if role = "data_analytics" ∧ avg_score < 75 then
        ["ANALYTICS CRITICAL: Cannot handle data analysis requirements"]
       else [])
    some (gaps.take 3)

/-- InterviewReportGenerator._generate_executive_summary (lines 301-310);
the :.0f score format is py_round_half_even. -/
def generate_executive_summary (avg_score : ℚ) (hiring_decision : HiringDecision) : String :=
  let score_text := toString (py_round_half_even avg_score)
  if hiring_decision.decision = "STRONG HIRE" then
    "**RECOMMEND FOR HIRE**: Strong Excel proficiency (Score: " ++ score_text ++
      "/100). Ready for immediate deployment."
  else if hiring_decision.decision = "CONDITIONAL HIRE" then
    "**CONDITIONAL HIRE**: Adequate Excel foundation (Score: " ++ score_text ++
      "/100) but requires training."
  else if hiring_decision.decision = "NO HIRE - TRAINING REQUIRED" then
    "**NOT RECOMMENDED**: Lacks essential Excel skills (Score: " ++ score_text ++
      "/100). Needs extensive training."
  else
    "**REJECT**: Insufficient Excel knowledge (Score: " ++ score_text ++
      "/100). Not suitable even with training."

/-- InterviewReportGenerator._get_recommendation_rationale (lines 312-321). -/
def get_recommendation_rationale (hiring_decision : HiringDecision) : String :=
  if hiring_decision.decision = "STRONG HIRE" then
    "Consistently high performance across Excel areas. Ready to contribute."
  else if hiring_decision.decision = "CONDITIONAL HIRE" then
    "Solid foundation with trainable gaps (2-4 weeks training)."
  else if hiring_decision.decision = "NO HIRE - TRAINING REQUIRED" then
    "Major gaps requiring 6-8 weeks of training."
  else
    "Critical deficiencies. Training wont be enough."

/-- InterviewReportGenerator._get_next_steps (lines 323-332). -/
def get_next_steps (hiring_decision : HiringDecision) : List String :=
  if hiring_decision.decision = "STRONG HIRE" then
    ["Proceed with job offer", "Assign Excel-heavy tasks", "Consider mentoring role"]
  else if hiring_decision.decision = "CONDITIONAL HIRE" then
    ["Hire with training plan", "Assign mentor", "Re-evaluate after 1 month"]
  else if hiring_decision.decision = "NO HIRE - TRAINING REQUIRED" then
    ["Do not hire", "Recommend Excel fundamentals course", "Reconsider after certification"]
  else
    ["Reject application", "Do not consider for Excel roles", "Focus on other candidates"]

/-- The three detailed averages of the report. -/
structure DetailedScores where
  technical_accuracy : ℚ
  depth_of_understanding : ℚ
  practical_application : ℚ
deriving DecidableEq

/-- The final report dict of generate_final_report. -/
structure Report where
  overall_score : ℚ
  hiring_decision : HiringDecision
  executive_summary : String
  detailed_scores : DetailedScores
  skills_breakdown : SkillsBreakdown
  critical_gaps : List String
  recommendation_rationale : String
  next_steps : List String
deriving DecidableEq

/-- InterviewReportGenerator.generate_final_report (lines 199-251).  In
the empty-evaluations branch the source still calls
_assess_critical_skills(evaluations) (line 207), which divides by
len(evaluations) = 0 and raises ZeroDivisionError; that raised exception
propagates, so the whole call is none there. -/
def generate_final_report (evaluations : List Evaluation) (role : String) : Option Report :=
  if evaluations.isEmpty then
    let hiring_decision := make_hiring_decision 0 role evaluations
    match assess_critical_skills evaluations with
    | none => none
    | some skills_assessment =>
      some { overall_score := 0
             hiring_decision := hiring_decision
             executive_summary :=
               "Candidate did not provide any answers. The system could not conduct an assessment."
             detailed_scores := ⟨0, 0, 0⟩
             skills_breakdown := skills_assessment
             critical_gaps := ["CRITICAL: No answers provided for evaluation."]
             recommendation_rationale := "Candidate did not engage in the interview process."
             next_steps := ["Reject application", "No data available to assess skills"] }
  else
    let avg_score := avg_of evaluations
    let n : ℚ := evaluations.length
    let technical_avg := (evaluations.map Evaluation.technical_accuracy).sum / n
    let depth_avg := (evaluations.map Evaluation.depth).sum / n
    let practical_avg := (evaluations.map Evaluation.practical_application).sum / n
    let hiring_decision := make_hiring_decision avg_score role evaluations
    match assess_critical_skills evaluations, identify_critical_gaps evaluations role with
    | some skills_assessment, some gaps =>
      some { overall_score := py_round1 avg_score
             hiring_decision := hiring_decision
             executive_summary := generate_executive_summary avg_score hiring_decision
             detailed_scores :=
               ⟨py_round1 technical_avg, py_round1 depth_avg, py_round1 practical_avg⟩
             skills_breakdown := skills_assessment
             critical_gaps := gaps
             recommendation_rationale := get_recommendation_rationale hiring_decision
             next_steps := get_next_steps hiring_decision }
    | _, _ => none

/-! ### Interview orchestrator (src/interview_orchestrator.py) -/

/-- One stored response record of a session (timestamp omitted). -/
structure ResponseRecord where
  question_id : ℕ
  response : String
deriving DecidableEq

/-- The current_interview dict initialised by start_interview (lines
44-56).  The interview_id (time and random derived), candidate_info and
the timestamp fields are omitted. -/
structure Session where
  role : String
  questions : List Question
  responses : List ResponseRecord
  evaluations : List Evaluation
  current_question_index : ℕ
  status : String
  has_asked_follow_up : Bool
deriving DecidableEq

/-- The orchestrator state: the question store it owns
(QuestionStorageAgent.questions), the optional active session and the
interview history. -/
structure Orchestrator where
  storage_questions : List Question
  current_interview : Option Session
  interview_history : List Session
deriving DecidableEq

/-- InterviewOrchestrator.get_current_question (lines 137-148) on an
active session. -/
def get_current_question (s : Session) : Option Question :=
  s.questions[s.current_question_index]?

/-- Modelled from the spec: interview_orchestrator.py line 189 calls
QuestionGeneratorAgent.generate_follow_up_question, but that method is
absent from src/questions_agent.py (only this caller exists).  Per the
spec, it generates exactly one follow-up question derived from the
current question and its evaluation, flagged so that it is never
persisted as a catalog question.  The spec fixes no question text, so
the derivation here is a representative one. -/
def generate_follow_up_question (current : Option Question) (evaluation : Evaluation) :
    Question :=
  match current with
  | some q =>
    { q with
      question := "Follow-up: " ++ q.question
      keywords := q.keywords ++ evaluation.improvements
      generated := false
      follow_up := true }
  | none =>
    { id := 0, question := "Follow-up", questionType := "concept", category := "",
      difficulty := "basic", keywords := evaluation.improvements, target_roles := [],
      usage_count := 0, avg_score := 0, success_rate := 0, effectiveness_score := 1/2,
      performance_history := [], generated := false, follow_up := true }

/-- The progress dict of a continue result. -/
structure Progress where
  current : ℕ
  total : ℕ
  percentage : ℚ
deriving DecidableEq

/-- The result dict returned by submit_answer: an error dict, a
follow_up result, a continue result, or a completed result.  The
final_report of a completed result is an Option because
generate_final_report can raise (see its doc comment); the total_time
entry is omitted (wall clock). -/
inductive SubmitResult where
  | error (msg : String)
  | follow_up (evaluation : Evaluation) (follow_up_question : Question)
  | continueResult (evaluation : Evaluation) (next_question : Option Question)
      (progress : Progress)
  | completed (final_report : Option Report)
deriving DecidableEq

/-- InterviewOrchestrator._complete_interview (lines 218-245): mark the
session completed, generate the report, append the session to the
history and clear the active slot. -/
def complete_interview (st : Orchestrator) : Orchestrator × SubmitResult :=
  match st.current_interview with
  | none => (st, .error "No active interview to complete")
  | some s =>
    let s1 := { s with status := "completed" }
    let final_report := generate_final_report s1.evaluations s1.role
    ({ st with current_interview := none,
               interview_history := st.interview_history ++ [s1] },
     .completed final_report)

/-- InterviewOrchestrator._determine_next_action (lines 180-216), acting
on the state st whose current_interview is the session s (already
holding the appended response and evaluation). -/
def determine_next_action (st : Orchestrator) (s : Session) (evaluation : Evaluation) :
    Orchestrator × SubmitResult :=
  if evaluation.score < 60 ∧ s.has_asked_follow_up = false then
    let s1 := { s with has_asked_follow_up := true }
    let st1 := { st with current_interview := some s1 }
    (st1, .follow_up evaluation (generate_follow_up_question (get_current_question s1) evaluation))
  else
    let s1 := { s with current_question_index := s.current_question_index + 1,
                       has_asked_follow_up := false }
    let st1 := { st with current_interview := some s1 }
    if s1.current_question_index ≥ s1.questions.length then
      complete_interview st1
    else
      (st1, .continueResult evaluation (get_current_question s1)
        { current := s1.current_question_index
          total := s1.questions.length
          percentage := (s1.current_question_index : ℚ) / (s1.questions.length : ℚ) * 100 })

/-- InterviewOrchestrator.submit_answer (lines 150-178): guard the
active session and current question, evaluate, append the response and
evaluation records, update the store statistics for the current
question (no outcome is passed), then branch. -/
def submit_answer (st : Orchestrator) (response : String) (oracle : OracleOutcome) :
    Orchestrator × SubmitResult :=
  match st.current_interview with
  | none => (st, .error "No active interview session")
  | some s =>
    match get_current_question s with
    | none => (st, .error "No current question available")
    | some current_question =>
      let evaluation := evaluate_comprehensive current_question response oracle
      let s1 := { s with
        responses := s.responses ++ [⟨current_question.id, response⟩]
        evaluations := s.evaluations ++ [evaluation] }
      let st1 := { st with
        storage_questions :=
          update_question_performance st.storage_questions current_question.id
            evaluation.score none
        current_interview := some s1 }
      determine_next_action st1 s1 evaluation

/-- Result of pause_interview. -/
inductive PauseResult where
  | error (msg : String)
  | paused
deriving DecidableEq

/-- InterviewOrchestrator.pause_interview (lines 306-314); the
pause_time entry is omitted (wall clock). -/
def pause_interview (st : Orchestrator) : Orchestrator × PauseResult :=
  match st.current_interview with
  | none => (st, .error "No active interview to pause")
  | some s =>
    ({ st with current_interview := some { s with status := "paused" } }, .paused)

/-- Result of resume_interview. -/
inductive ResumeResult where
  | error (msg : String)
  | resumed (current_question : Option Question)
deriving DecidableEq

/-- InterviewOrchestrator.resume_interview (lines 316-332); the
resume_time entry is omitted (wall clock). -/
def resume_interview (st : Orchestrator) : Orchestrator × ResumeResult :=
  match st.current_interview with
  | none => (st, .error "No interview to resume")
  | some s =>
    if s.status ≠ "paused" then (st, .error "Interview is not in paused state")
    else
      let s1 := { s with status := "in_progress" }
      ({ st with current_interview := some s1 }, .resumed (get_current_question s1))

/-- One orchestrator operation on a session. -/
inductive Op where
  | submit (response : String) (oracle : OracleOutcome)
  | pause
  | resume
deriving DecidableEq

/-- The state reached after one orchestrator operation. -/
def orchestrator_step (st : Orchestrator) : Op → Orchestrator
  | .submit response oracle => (submit_answer st response oracle).1
  | .pause => (pause_interview st).1
  | .resume => (resume_interview st).1

/-! ### Specification-side definitions

These definitions transcribe the wording of spec claims so that they can
be compared with the source-derived definitions above. -/

/-- Clamp to the unit interval, written as the source writes it:
min(max(x, 0.0), 1.0). -/
def clamp01 (x : ℚ) : ℚ := min (max x 0) 1

/-- The effectiveness formula exactly as claim C3 words it: the
discrimination term is clamped before weighting, and the total is
clamped to the unit interval. -/
def effectiveness_claimed (q : Question) : ℚ :=
  clamp01 ((2/5) * clamp01 (|q.avg_score - 70| / 30) +
    (3/10) * min ((q.usage_count : ℚ) / 50) 1 +
    (3/10) * q.success_rate)

/-- The hiring-decision ladder exactly as the spec words it: decision by
thresholds, a forced REJECT when more than half of all evaluations
scored below 30, and meets_threshold computed independently. -/
def hiring_decision_spec (avg_score : ℚ) (role : String)
    (evaluations : List Evaluation) : HiringDecision :=
  let threshold := hiring_thresholds role
  let forced := 2 * (evaluations.filter (fun e => e.score < 30)).length > evaluations.length
  let dc : String × String :=
    if forced then ("REJECT", "High")
    else if avg_score ≥ 85 then ("STRONG HIRE", "High")
    else if avg_score ≥ threshold then ("CONDITIONAL HIRE", "Medium")
    else if avg_score ≥ 50 then ("NO HIRE - TRAINING REQUIRED", "High")
    else ("REJECT", "High")
  { decision := dc.1, confidence := dc.2, meets_threshold := decide (avg_score ≥ threshold) }

/-! ### Concrete sample data for witnesses and counterexamples -/

/-- The first seed question of
QuestionStorageAgent._initialize_seed_questions (created_date omitted). -/
def sample_question : Question :=
  { id := 1
    question := "What Excel function would you use to sum values in range A1:A10?"
    questionType := "formula"
    category := "basic_formulas"
    difficulty := "basic"
    keywords := ["SUM", "formula", "range"]
    target_roles := ["finance", "operations", "data_analytics"]
    usage_count := 0
    avg_score := 0
    success_rate := 0
    effectiveness_score := 1/2
    performance_history := []
    generated := false }

/-- The sample question after two recorded scores of 0: the state just
before the update that takes usage_count to 3. -/
def zero_avg_question : Question :=
  { sample_question with
    usage_count := 2
    avg_score := 0
    performance_history := [⟨0, none⟩, ⟨0, none⟩] }

/-- A well-formed oracle JSON object whose numeric fields all hold 150,
outside the 0-100 range. -/
def json_150 : ParsedJson :=
  { score := some 150
    technical_accuracy := some 150
    depth := some 150
    practical_application := some 150
    strengths := some ["s"]
    improvements := some ["i"]
    overall_feedback := some "fb" }

/-- A well-formed oracle JSON object whose numeric fields all hold 90. -/
def json_90 : ParsedJson :=
  { score := some 90
    technical_accuracy := some 90
    depth := some 90
    practical_application := some 90
    strengths := some ["good"]
    improvements := some []
    overall_feedback := some "ok" }

/-- A concrete evaluation with score 90, produced through the real
evaluation path. -/
def sample_evaluation_90 : Evaluation :=
  evaluate_comprehensive sample_question "resp" (.jsonObject json_90)

/-- A freshly started one-question session. -/
def sample_session : Session :=
  { role := "finance"
    questions := [sample_question]
    responses := []
    evaluations := []
    current_question_index := 0
    status := "in_progress"
    has_asked_follow_up := false }

/-- An orchestrator holding the sample session. -/
def sample_orchestrator : Orchestrator :=
  { storage_questions := [sample_question]
    current_interview := some sample_session
    interview_history := [] }

/-- The sample session after pause_interview. -/
def paused_session : Session := { sample_session with status := "paused" }

/-- An orchestrator holding the paused sample session. -/
def paused_orchestrator : Orchestrator :=
  { sample_orchestrator with current_interview := some paused_session }

/-- The session as mutated by submit_answer before branching: the
response and evaluation records appended (interview_orchestrator.py
lines 162-169). -/
def append_records (s : Session) (q : Question) (resp : String) (e : Evaluation) : Session :=
  { s with responses := s.responses ++ [⟨q.id, resp⟩],
           evaluations := s.evaluations ++ [e] }

/-! ### Claim theorems -/

/-- C1 (code_bug evidence): for the empty evaluations list and every
role, generate_final_report does not return a report at all: its
empty-evaluations branch calls _assess_critical_skills([]), whose
division by len(evaluations) = 0 raises ZeroDivisionError (modelled as
none), so no REJECT-shaped report is produced. -/
theorem generate_final_report_empty_raises :
    assess_critical_skills ([] : List Evaluation) = none ∧
    ∀ role : String, generate_final_report [] role = none := by
  exact ⟨rfl, fun role => rfl⟩

/-- C6: for every question record, the effectiveness score computed by
_calculate_effectiveness lies in the unit interval for all combinations
of usage_count, avg_score and success_rate, and equals exactly 0.5
whenever usage_count < 3. -/
theorem effectiveness_bounds (q : Question) :
    0 ≤ calculate_effectiveness q ∧ calculate_effectiveness q ≤ 1 ∧
    (q.usage_count < 3 → calculate_effectiveness q = 1/2) := by
  unfold calculate_effectiveness
  split_ifs with h
  · exact ⟨by norm_num, by norm_num, fun _ => rfl⟩
  · exact ⟨le_min (le_max_right _ _) zero_le_one, min_le_right _ _,
      fun hc => absurd hc h⟩

/-- Witness for C6 at a concrete record with usage_count 2 < 3. -/
theorem effectiveness_bounds_witness :
    0 ≤ calculate_effectiveness zero_avg_question ∧
    calculate_effectiveness zero_avg_question ≤ 1 ∧
    calculate_effectiveness zero_avg_question = 1/2 := by
  obtain ⟨h1, h2, h3⟩ := effectiveness_bounds zero_avg_question
  exact ⟨h1, h2, h3 (by decide)⟩

/-- C7: generate_interview_questions splits count into per-difficulty
targets of count // 3 each, with the remainder going to basic first and
then intermediate, never to advanced, so the targets sum to count. -/
theorem difficulty_distribution_split (count : ℕ) :
    (difficulty_distribution count).basic + (difficulty_distribution count).intermediate +
      (difficulty_distribution count).advanced = count ∧
    (difficulty_distribution count).advanced = count / 3 ∧
    (count % 3 = 0 → (difficulty_distribution count).basic = count / 3 ∧
      (difficulty_distribution count).intermediate = count / 3) ∧
    (count % 3 = 1 → (difficulty_distribution count).basic = count / 3 + 1 ∧
      (difficulty_distribution count).intermediate = count / 3) ∧
    (count % 3 = 2 → (difficulty_distribution count).basic = count / 3 + 1 ∧
      (difficulty_distribution count).intermediate = count / 3 + 1) := by
  unfold difficulty_distribution
  refine ⟨?_, ?_, ?_, ?_, ?_⟩ <;> simp only [] <;> intros <;> split_ifs <;> omega

/-- Witness for C7 at count = 7 (remainder 1: basic gets the extra). -/
theorem difficulty_distribution_split_witness :
    (difficulty_distribution 7).basic = 7 / 3 + 1 ∧
    (difficulty_distribution 7).intermediate = 7 / 3 ∧
    (difficulty_distribution 7).basic + (difficulty_distribution 7).intermediate +
      (difficulty_distribution 7).advanced = 7 := by
  obtain ⟨hsum, _, _, h1, _⟩ := difficulty_distribution_split 7
  exact ⟨(h1 (by decide)).1, (h1 (by decide)).2, hsum⟩

/-- The usage_count written by apply_performance_update. -/
lemma apply_update_usage (q : Question) (s : ℚ) (o : Option String) :
    (apply_performance_update q s o).usage_count = q.usage_count + 1 := rfl

/-- The effectiveness_score written by apply_performance_update is the
recomputation over the updated record (the effectiveness field itself is
not read by _calculate_effectiveness). -/
lemma apply_update_eff (q : Question) (s : ℚ) (o : Option String) :
    (apply_performance_update q s o).effectiveness_score =
      calculate_effectiveness (apply_performance_update q s o) := rfl

/-- The absolute deviation of a zero average from the midpoint 70. -/
lemma abs_zero_sub_seventy : |(0:ℚ) - 70| = 70 := by
  rw [abs_sub_comm, show (70:ℚ) - 0 = 70 from by norm_num]
  exact abs_of_nonneg (by norm_num)

/-- C3 (counterexample): update_question_performance does not compute
the claimed formula.  Updating the sample question that has two recorded
scores of 0 with a third score of 0 gives usage_count 3 and avg_score 0;
the source leaves the discrimination term |0 - 70| / 30 = 7/3 unclamped
and stores 7/3 x 2/5 + 3/50 x 3/10 = 1427/1500, while the claimed
formula (discrimination clamped before weighting) gives 209/500. -/
theorem effectiveness_claim_counterexample :
    3 ≤ (apply_performance_update zero_avg_question 0 none).usage_count ∧
    (apply_performance_update zero_avg_question 0 none).effectiveness_score = 1427/1500 ∧
    effectiveness_claimed (apply_performance_update zero_avg_question 0 none) = 209/500 ∧
    (apply_performance_update zero_avg_question 0 none).effectiveness_score ≠
      effectiveness_claimed (apply_performance_update zero_avg_question 0 none) := by
  have huc : (apply_performance_update zero_avg_question 0 none).usage_count = 3 := rfl
  have havg : (apply_performance_update zero_avg_question 0 none).avg_score = 0 := by
    simp only [apply_performance_update, zero_avg_question, sample_question]
    norm_num
  have hsr : (apply_performance_update zero_avg_question 0 none).success_rate = 0 := rfl
  have heff : (apply_performance_update zero_avg_question 0 none).effectiveness_score
      = 1427/1500 := by
    rw [apply_update_eff]
    unfold calculate_effectiveness
    rw [huc, havg, hsr]
    rw [if_neg (by norm_num)]
    rw [abs_zero_sub_seventy]
    norm_num [min_def, max_def]
  have hclaim : effectiveness_claimed (apply_performance_update zero_avg_question 0 none)
      = 209/500 := by
    unfold effectiveness_claimed clamp01
    rw [huc, havg, hsr]
    rw [abs_zero_sub_seventy]
    norm_num [min_def, max_def]
  refine ⟨le_of_eq huc.symm, heff, hclaim, ?_⟩
  rw [heff, hclaim]
  norm_num

/-- C3 (amended): for every question whose post-update usage_count is at
least 3, update_question_performance recomputes effectiveness_score as
2/5 x (|avg_score - 70| / 30) + 3/10 x min(usage_count/50, 1) + 3/10 x
success_rate over the post-update statistics, with only the total
clamped to the unit interval; the discrimination term is not clamped
before weighting. -/
theorem update_effectiveness_formula (q : Question) (score : ℚ) (outcome : Option String)
    (h : 3 ≤ (apply_performance_update q score outcome).usage_count) :
    (apply_performance_update q score outcome).effectiveness_score =
      clamp01 ((2/5) * (|(apply_performance_update q score outcome).avg_score - 70| / 30) +
        (3/10) * min (((apply_performance_update q score outcome).usage_count : ℚ) / 50) 1 +
        (3/10) * (apply_performance_update q score outcome).success_rate) ∧
    ∀ rest : List Question,
      update_question_performance (q :: rest) q.id score outcome =
        apply_performance_update q score outcome :: rest := by
  constructor
  · rw [apply_update_eff]
    rw [show calculate_effectiveness (apply_performance_update q score outcome) =
        min (max (|(apply_performance_update q score outcome).avg_score - 70| / 30 * (2/5) +
          min (((apply_performance_update q score outcome).usage_count : ℚ) / 50) 1 * (3/10) +
          (apply_performance_update q score outcome).success_rate * (3/10)) 0) 1 from by
      unfold calculate_effectiveness
      rw [if_neg (by omega)]]
    unfold clamp01
    congr 2
    ring
  · intro rest
    unfold update_question_performance
    rw [if_pos rfl]

/-- Witness for the amended C3 at the concrete zero_avg_question update. -/
theorem update_effectiveness_formula_witness :
    (apply_performance_update zero_avg_question 0 none).effectiveness_score =
      clamp01 ((2/5) *
          (|(apply_performance_update zero_avg_question 0 none).avg_score - 70| / 30) +
        (3/10) *
          min (((apply_performance_update zero_avg_question 0 none).usage_count : ℚ) / 50) 1 +
        (3/10) * (apply_performance_update zero_avg_question 0 none).success_rate) ∧
    update_question_performance [zero_avg_question] zero_avg_question.id 0 none =
      [apply_performance_update zero_avg_question 0 none] := by
  obtain ⟨h1, h2⟩ := update_effectiveness_formula zero_avg_question 0 none (by decide)
  exact ⟨h1, h2 []⟩

/-- C8: on oracle call failure the local fallback evaluation scores
40 plus the word-count bonus (more than 30 words gives 25, more than 15
gives 15, more than 5 gives 10, else 0), plus 20 when one of the fixed
Excel function names appears case-insensitively, plus 15 when the text
contains an equality sign or parentheses, capped at 100; the resulting
score always lies in the 0-100 range and the evaluation_source is
Fallback. -/
theorem fallback_score_bounds (question : Question) (response error : String) :
    0 ≤ (fallback_evaluation question response error).score ∧
    (fallback_evaluation question response error).score ≤ 100 ∧
    (fallback_evaluation question response error).evaluation_source = "Fallback" ∧
    (fallback_evaluation question response error).score =
      min ((40 : ℚ) +
        (if py_word_count response > 30 then 25
         else if py_word_count response > 15 then 15
         else if py_word_count response > 5 then 10 else 0) +
        (if (excel_functions.filter fun func => py_contains_ci response func).isEmpty
         then 0 else 20) +
        (if py_contains response "=" || py_contains response "()" then 15 else 0)) 100 := by
  have hs : (fallback_evaluation question response error).score =
      min ((40 : ℚ) +
        (if py_word_count response > 30 then 25
         else if py_word_count response > 15 then 15
         else if py_word_count response > 5 then 10 else 0) +
        (if (excel_functions.filter fun func => py_contains_ci response func).isEmpty
         then 0 else 20) +
        (if py_contains response "=" || py_contains response "()" then 15 else 0)) 100 := rfl
  refine ⟨?_, ?_, rfl, hs⟩
  · rw [hs]
    refine le_min ?_ (by norm_num)
    split_ifs <;> norm_num
  · rw [hs]
    exact min_le_right _ _

/-- C4: for every non-empty evaluations list and every role, the hiring
decision of _make_hiring_decision follows the spec ladder (STRONG HIRE
at 85, CONDITIONAL HIRE at the role threshold, NO HIRE - TRAINING
REQUIRED at 50, REJECT below, forced REJECT when more than half of all
evaluations scored below 30), the role thresholds are finance 75,
operations 70, data_analytics 80 and 70 for unknown roles,
meets_threshold is computed independently of the forced override, and
generate_final_report embeds exactly this decision. -/
theorem hiring_decision_ladder (evaluations : List Evaluation) (role : String)
    (h : evaluations ≠ []) :
    make_hiring_decision (avg_of evaluations) role evaluations =
      hiring_decision_spec (avg_of evaluations) role evaluations ∧
    (make_hiring_decision (avg_of evaluations) role evaluations).meets_threshold =
      decide (avg_of evaluations ≥ hiring_thresholds role) ∧
    hiring_thresholds "finance" = 75 ∧
    hiring_thresholds "operations" = 70 ∧
    hiring_thresholds "data_analytics" = 80 ∧
    (role ≠ "finance" → role ≠ "operations" → role ≠ "data_analytics" →
      hiring_thresholds role = 70) ∧
    (∃ r, generate_final_report evaluations role = some r ∧
      r.hiring_decision = make_hiring_decision (avg_of evaluations) role evaluations) := by
  have hne : evaluations.isEmpty = false := by
    cases evaluations with
    | nil => exact absurd rfl h
    | cons e es => rfl
  have hnotempty : ¬ (evaluations.isEmpty = true) := by simp [hne]
  refine ⟨?_, rfl, rfl, rfl, rfl, ?_, ?_⟩
  · unfold make_hiring_decision hiring_decision_spec
    by_cases hov :
        (evaluations.filter fun e => e.score < 30).length > evaluations.length / 2
    · have hov2 : 2 * (evaluations.filter fun e => e.score < 30).length >
          evaluations.length := by omega
      simp only [hov, hov2, if_true]
    · have hov2 : ¬ (2 * (evaluations.filter fun e => e.score < 30).length >
          evaluations.length) := by omega
      simp only [hov, hov2, if_false]
  · intro h1 h2 h3
    unfold hiring_thresholds
    rw [if_neg h1, if_neg h2, if_neg h3]
  · cases hsk : assess_critical_skills evaluations with
    | none =>
      unfold assess_critical_skills at hsk
      rw [if_neg hnotempty] at hsk
      simp at hsk
    | some sk =>
      cases hgaps : identify_critical_gaps evaluations role with
      | none =>
        unfold identify_critical_gaps at hgaps
        rw [if_neg hnotempty] at hgaps
        simp at hgaps
      | some gaps =>
        have hrep : generate_final_report evaluations role = some
            { overall_score := py_round1 (avg_of evaluations)
              hiring_decision := make_hiring_decision (avg_of evaluations) role evaluations
              executive_summary := generate_executive_summary (avg_of evaluations)
                (make_hiring_decision (avg_of evaluations) role evaluations)
              detailed_scores :=
                ⟨py_round1 ((evaluations.map Evaluation.technical_accuracy).sum /
                    evaluations.length),
                  py_round1 ((evaluations.map Evaluation.depth).sum / evaluations.length),
                  py_round1 ((evaluations.map Evaluation.practical_application).sum /
                    evaluations.length)⟩
              skills_breakdown := sk
              critical_gaps := gaps
              recommendation_rationale := get_recommendation_rationale
                (make_hiring_decision (avg_of evaluations) role evaluations)
              next_steps := get_next_steps
                (make_hiring_decision (avg_of evaluations) role evaluations) } := by
          unfold generate_final_report
          rw [if_neg hnotempty, hsk, hgaps]
        exact ⟨_, hrep, rfl⟩

/-- Witness for C4 with a single evaluation of score 90 for the finance
role. -/
theorem hiring_decision_ladder_witness :
    make_hiring_decision (avg_of [sample_evaluation_90]) "finance" [sample_evaluation_90] =
      hiring_decision_spec (avg_of [sample_evaluation_90]) "finance" [sample_evaluation_90] ∧
    ∃ r, generate_final_report [sample_evaluation_90] "finance" = some r ∧
      r.hiring_decision =
        make_hiring_decision (avg_of [sample_evaluation_90]) "finance" [sample_evaluation_90] := by
  obtain ⟨h1, _, _, _, _, _, h7⟩ :=
    hiring_decision_ladder [sample_evaluation_90] "finance" (List.cons_ne_nil _ _)
  exact ⟨h1, h7⟩

/-- C9: a successfully decoded oracle JSON object has its numeric fields
taken verbatim with no range validation; a well-formed oracle output
with score 150 flows unchanged through evaluate_comprehensive and into
the overall_score of the final report. -/
theorem parse_ai_no_clamping :
    (∀ j : ParsedJson,
      (parse_ai_evaluation j).score = j.score.getD 50 ∧
      (parse_ai_evaluation j).technical_accuracy = j.technical_accuracy.getD 50 ∧
      (parse_ai_evaluation j).depth = j.depth.getD 50 ∧
      (parse_ai_evaluation j).practical_application = j.practical_application.getD 50) ∧
    (evaluate_comprehensive sample_question "resp" (.jsonObject json_150)).score = 150 ∧
    ¬ (evaluate_comprehensive sample_question "resp" (.jsonObject json_150)).score ≤ 100 ∧
    (∃ r, generate_final_report
        [evaluate_comprehensive sample_question "resp" (.jsonObject json_150)] "general" =
          some r ∧
      r.overall_score = 150 ∧ ¬ r.overall_score ≤ 100) := by
  refine ⟨fun j => ⟨rfl, rfl, rfl, rfl⟩, rfl, ?_, ?_⟩
  · rw [show (evaluate_comprehensive sample_question "resp"
        (.jsonObject json_150)).score = (150:ℚ) from rfl]
    norm_num
  · set e := evaluate_comprehensive sample_question "resp" (.jsonObject json_150) with he
    have hscore : Evaluation.score e = (150:ℚ) := rfl
    have hnotempty : ¬ (([e] : List Evaluation).isEmpty = true) := by simp
    have havg : avg_of [e] = 150 := by
      simp [avg_of, hscore]
    have hsk : assess_critical_skills [e] =
        some ⟨"STRONG", "STRONG", "STRONG", "STRONG"⟩ := by
      unfold assess_critical_skills
      rw [if_neg hnotempty, havg]
      norm_num
    have hgaps : identify_critical_gaps [e] "general" = some [] := by
      unfold identify_critical_gaps
      rw [if_neg hnotempty, havg]
      norm_num [hscore]
    have hrep : generate_final_report [e] "general" = some
        { overall_score := py_round1 (avg_of [e])
          hiring_decision := make_hiring_decision (avg_of [e]) "general" [e]
          executive_summary := generate_executive_summary (avg_of [e])
            (make_hiring_decision (avg_of [e]) "general" [e])
          detailed_scores :=
            ⟨py_round1 (([e].map Evaluation.technical_accuracy).sum / ([e] : List Evaluation).length),
              py_round1 (([e].map Evaluation.depth).sum / ([e] : List Evaluation).length),
              py_round1 (([e].map Evaluation.practical_application).sum /
                ([e] : List Evaluation).length)⟩
          skills_breakdown := ⟨"STRONG", "STRONG", "STRONG", "STRONG"⟩
          critical_gaps := []
          recommendation_rationale := get_recommendation_rationale
            (make_hiring_decision (avg_of [e]) "general" [e])
          next_steps := get_next_steps (make_hiring_decision (avg_of [e]) "general" [e]) } := by
      unfold generate_final_report
      rw [if_neg hnotempty, hsk, hgaps]
    refine ⟨_, hrep, ?_, ?_⟩
    · show py_round1 (avg_of [e]) = 150
      rw [havg]
      norm_num [py_round1, py_round_half_even]
    · show ¬ py_round1 (avg_of [e]) ≤ 100
      rw [havg]
      norm_num [py_round1, py_round_half_even]

/-- Unfolding lemma for submit_answer on an active session with a
current question. -/
lemma submit_answer_eq (store : List Question) (s : Session) (hist : List Session)
    (q : Question) (resp : String) (oracle : OracleOutcome)
    (hq : get_current_question s = some q) :
    submit_answer ⟨store, some s, hist⟩ resp oracle =
      determine_next_action
        ⟨update_question_performance store q.id
            (evaluate_comprehensive q resp oracle).score none,
          some (append_records s q resp (evaluate_comprehensive q resp oracle)),
          hist⟩
        (append_records s q resp (evaluate_comprehensive q resp oracle))
        (evaluate_comprehensive q resp oracle) := by
  unfold submit_answer append_records
  simp only [hq]

/-- The follow-up branch of _determine_next_action. -/
lemma determine_next_action_follow_up (st : Orchestrator) (s : Session) (e : Evaluation)
    (hcond : e.score < 60 ∧ s.has_asked_follow_up = false) :
    determine_next_action st s e =
      ({ st with current_interview := some { s with has_asked_follow_up := true } },
        .follow_up e (generate_follow_up_question
          (get_current_question { s with has_asked_follow_up := true }) e)) := by
  unfold determine_next_action
  rw [if_pos hcond]

/-- The advance-and-continue branch of _determine_next_action. -/
lemma determine_next_action_advance (st : Orchestrator) (s : Session) (e : Evaluation)
    (hcond : ¬ (e.score < 60 ∧ s.has_asked_follow_up = false))
    (hlt : s.current_question_index + 1 < s.questions.length) :
    determine_next_action st s e =
      ({ st with current_interview :=
                   some { s with
                          current_question_index := s.current_question_index + 1,
                          has_asked_follow_up := false } },
        .continueResult e
          (get_current_question { s with
                                  current_question_index := s.current_question_index + 1,
                                  has_asked_follow_up := false })
          { current := s.current_question_index + 1
            total := s.questions.length
            percentage := ((s.current_question_index + 1 : ℕ) : ℚ) /
              (s.questions.length : ℚ) * 100 }) := by
  unfold determine_next_action
  rw [if_neg hcond, if_neg (by omega : ¬ s.current_question_index + 1 ≥ s.questions.length)]

/-- The advance-and-complete branch of _determine_next_action. -/
lemma determine_next_action_complete (st : Orchestrator) (s : Session) (e : Evaluation)
    (hcond : ¬ (e.score < 60 ∧ s.has_asked_follow_up = false))
    (hge : s.current_question_index + 1 ≥ s.questions.length) :
    determine_next_action st s e =
      ({ st with current_interview := none,
                 interview_history := st.interview_history ++
                   [{ s with current_question_index := s.current_question_index + 1,
                             has_asked_follow_up := false, status := "completed" }] },
        .completed (generate_final_report s.evaluations s.role)) := by
  unfold determine_next_action
  rw [if_neg hcond, if_pos hge]
  unfold complete_interview
  rfl

/-- Once the active-session slot is empty, no operation refills it. -/
lemma step_none (st : Orchestrator) (op : Op) (h : st.current_interview = none) :
    (orchestrator_step st op).current_interview = none := by
  obtain ⟨store, cur, hist⟩ := st
  simp only at h
  subst h
  cases op <;> rfl

/-- One orchestrator operation never decreases the session index and
increases it by at most one. -/
lemma step_index (st : Orchestrator) (op : Op) (s s1 : Session)
    (hs : st.current_interview = some s)
    (h1 : (orchestrator_step st op).current_interview = some s1) :
    s.current_question_index ≤ s1.current_question_index ∧
    s1.current_question_index ≤ s.current_question_index + 1 := by
  obtain ⟨store, cur, hist⟩ := st
  simp only at hs
  subst hs
  cases op with
  | pause =>
    simp only [orchestrator_step, pause_interview, Option.some.injEq] at h1
    subst h1
    exact ⟨le_refl _, Nat.le_succ _⟩
  | resume =>
    simp only [orchestrator_step, resume_interview] at h1
    split at h1
    · simp only [Option.some.injEq] at h1
      subst h1
      exact ⟨le_refl _, Nat.le_succ _⟩
    · simp only [Option.some.injEq] at h1
      subst h1
      exact ⟨le_refl _, Nat.le_succ _⟩
  | submit resp oracle =>
    cases hq : get_current_question s with
    | none =>
      simp only [orchestrator_step, submit_answer, hq, Option.some.injEq] at h1
      subst h1
      exact ⟨le_refl _, Nat.le_succ _⟩
    | some q =>
      have heq := submit_answer_eq store s hist q resp oracle hq
      simp only [orchestrator_step, heq] at h1
      by_cases hcond : (evaluate_comprehensive q resp oracle).score < 60 ∧
          s.has_asked_follow_up = false
      · rw [determine_next_action_follow_up _
          (append_records s q resp (evaluate_comprehensive q resp oracle)) _ hcond] at h1
        simp only [Option.some.injEq] at h1
        subst h1
        exact ⟨le_refl _, Nat.le_succ _⟩
      · by_cases hend : s.current_question_index + 1 ≥ s.questions.length
        · rw [determine_next_action_complete _
            (append_records s q resp (evaluate_comprehensive q resp oracle)) _
            hcond hend] at h1
          simp at h1
        · have hlt : s.current_question_index + 1 < s.questions.length := by omega
          rw [determine_next_action_advance _
            (append_records s q resp (evaluate_comprehensive q resp oracle)) _
            hcond hlt] at h1
          simp only [Option.some.injEq] at h1
          subst h1
          exact ⟨Nat.le_succ _, le_refl _⟩

/-- The empty slot persists across a whole operation sequence. -/
lemma foldl_none (ops : List Op) (st : Orchestrator) (h : st.current_interview = none) :
    (ops.foldl orchestrator_step st).current_interview = none := by
  induction ops generalizing st with
  | nil => exact h
  | cons op ops ih => exact ih _ (step_none st op h)

/-- The session index never decreases across a whole operation
sequence. -/
lemma foldl_index_mono (ops : List Op) (st : Orchestrator) (s s1 : Session)
    (hs : st.current_interview = some s)
    (h1 : (ops.foldl orchestrator_step st).current_interview = some s1) :
    s.current_question_index ≤ s1.current_question_index := by
  induction ops generalizing st s with
  | nil =>
    simp only [List.foldl_nil] at h1
    rw [hs] at h1
    cases h1
    exact le_refl _
  | cons op ops ih =>
    simp only [List.foldl_cons] at h1
    cases hmid : (orchestrator_step st op).current_interview with
    | none =>
      rw [foldl_none ops _ hmid] at h1
      cases h1
    | some smid =>
      exact le_trans (step_index st op s smid hs hmid).1 (ih _ _ hmid h1)

/-- C5: across every sequence of orchestrator operations on a session
the current_question_index never decreases and each step raises it by at
most one (an advance is exactly plus one); a submit_answer on a session
with a current question finalizes the session (active slot cleared,
completed session appended to the history, completed result carrying the
generated report) exactly when the advanced index reaches the number of
questions, and any surviving session keeps its index below that number;
pause and resume never change the index. -/
theorem session_index_invariants :
    (∀ (st : Orchestrator) (op : Op) (s s1 : Session),
        st.current_interview = some s →
        (orchestrator_step st op).current_interview = some s1 →
        s.current_question_index ≤ s1.current_question_index ∧
        s1.current_question_index ≤ s.current_question_index + 1) ∧
    (∀ (ops : List Op) (st : Orchestrator) (s s1 : Session),
        st.current_interview = some s →
        (ops.foldl orchestrator_step st).current_interview = some s1 →
        s.current_question_index ≤ s1.current_question_index) ∧
    (∀ (st : Orchestrator) (s : Session) (resp : String) (oracle : OracleOutcome),
        st.current_interview = some s →
        s.current_question_index < s.questions.length →
        (∀ s1, (submit_answer st resp oracle).1.current_interview = some s1 →
          s1.current_question_index < s1.questions.length) ∧
        ((submit_answer st resp oracle).1.current_interview = none ↔
          ∃ sc, (submit_answer st resp oracle).1.interview_history =
              st.interview_history ++ [sc] ∧
            sc.status = "completed" ∧
            sc.current_question_index = s.current_question_index + 1 ∧
            sc.current_question_index = s.questions.length ∧
            (submit_answer st resp oracle).2 =
              SubmitResult.completed (generate_final_report sc.evaluations sc.role))) ∧
    (∀ (st : Orchestrator) (s s1 : Session), st.current_interview = some s →
        ((pause_interview st).1.current_interview = some s1 →
          s1.current_question_index = s.current_question_index) ∧
        ((resume_interview st).1.current_interview = some s1 →
          s1.current_question_index = s.current_question_index)) := by
  refine ⟨step_index, foldl_index_mono, ?_, ?_⟩
  · intro st s resp oracle hs hidx
    obtain ⟨store, cur, hist⟩ := st
    simp only at hs
    subst hs
    have hq : get_current_question s = some (s.questions[s.current_question_index]) :=
      List.getElem?_eq_getElem hidx
    rw [submit_answer_eq store s hist _ resp oracle hq]
    by_cases hcond : (evaluate_comprehensive (s.questions[s.current_question_index]) resp
          oracle).score < 60 ∧
        s.has_asked_follow_up = false
    · rw [determine_next_action_follow_up _
        (append_records s (s.questions[s.current_question_index]) resp
          (evaluate_comprehensive (s.questions[s.current_question_index]) resp oracle)) _
        hcond]
      refine ⟨?_, ?_, ?_⟩
      · intro s1 h1
        simp only [Option.some.injEq] at h1
        subst h1
        exact hidx
      · intro h1
        simp at h1
      · rintro ⟨sc, hhist, -⟩
        have := congrArg List.length hhist
        simp at this
    · by_cases hend : s.current_question_index + 1 ≥ s.questions.length
      · rw [determine_next_action_complete _
          (append_records s (s.questions[s.current_question_index]) resp
            (evaluate_comprehensive (s.questions[s.current_question_index]) resp oracle)) _
          hcond hend]
        refine ⟨?_, ?_, ?_⟩
        · intro s1 h1
          simp at h1
        · intro _
          refine ⟨_, rfl, rfl, rfl, ?_, rfl⟩
          show s.current_question_index + 1 = s.questions.length
          omega
        · intro _
          rfl
      · have hlt : s.current_question_index + 1 < s.questions.length := by omega
        rw [determine_next_action_advance _
          (append_records s (s.questions[s.current_question_index]) resp
            (evaluate_comprehensive (s.questions[s.current_question_index]) resp oracle)) _
          hcond hlt]
        refine ⟨?_, ?_, ?_⟩
        · intro s1 h1
          simp only [Option.some.injEq] at h1
          subst h1
          exact hlt
        · intro h1
          simp at h1
        · rintro ⟨sc, hhist, -⟩
          have := congrArg List.length hhist
          simp at this
  · intro st s s1 hs
    obtain ⟨store, cur, hist⟩ := st
    simp only at hs
    subst hs
    constructor
    · intro h1
      simp only [pause_interview, Option.some.injEq] at h1
      subst h1
      rfl
    · intro h1
      simp only [resume_interview] at h1
      split at h1
      · simp only [Option.some.injEq] at h1
        subst h1
        rfl
      · simp only [Option.some.injEq] at h1
        subst h1
        rfl

/-- Witness for C5: the one-question sample session, answered with an
oracle score of 90, completes exactly at index 1 = number of questions,
with the report generated from the recorded evaluation. -/
theorem session_index_invariants_witness :
    ∃ sc, (submit_answer sample_orchestrator "resp" (.jsonObject json_90)).1.interview_history =
        sample_orchestrator.interview_history ++ [sc] ∧
      sc.status = "completed" ∧
      sc.current_question_index = sample_session.current_question_index + 1 ∧
      sc.current_question_index = sample_session.questions.length ∧
      (submit_answer sample_orchestrator "resp" (.jsonObject json_90)).2 =
        SubmitResult.completed (generate_final_report sc.evaluations sc.role) := by
  have h := (session_index_invariants.2.2.1 sample_orchestrator sample_session "resp"
    (.jsonObject json_90) rfl (by decide)).2
  exact h.mp (by rfl)

/-- C2 (against the spec-modelled follow-up generator): in an active
session, when the evaluation score is below 60 and no follow-up has been
asked for the current question, submit_answer returns a follow_up result
carrying exactly one generated follow-up question, leaves
current_question_index unchanged, and sets has_asked_follow_up, after
which no further submission can yield a follow_up result for this
question. -/
theorem submit_answer_follow_up_once
    (st : Orchestrator) (s : Session) (q : Question) (resp : String) (oracle : OracleOutcome)
    (hs : st.current_interview = some s)
    (hq : get_current_question s = some q)
    (hscore : (evaluate_comprehensive q resp oracle).score < 60)
    (hflag : s.has_asked_follow_up = false) :
    (submit_answer st resp oracle).2 =
      SubmitResult.follow_up (evaluate_comprehensive q resp oracle)
        (generate_follow_up_question (some q) (evaluate_comprehensive q resp oracle)) ∧
    ∃ s1, (submit_answer st resp oracle).1.current_interview = some s1 ∧
      s1.current_question_index = s.current_question_index ∧
      s1.has_asked_follow_up = true ∧
      ∀ (resp2 : String) (oracle2 : OracleOutcome) (e2 : Evaluation) (fq : Question),
        (submit_answer (submit_answer st resp oracle).1 resp2 oracle2).2 ≠
          SubmitResult.follow_up e2 fq := by
  obtain ⟨store, cur, hist⟩ := st
  simp only at hs
  subst hs
  rw [submit_answer_eq store s hist q resp oracle hq]
  rw [determine_next_action_follow_up _
    (append_records s q resp (evaluate_comprehensive q resp oracle)) _ ⟨hscore, hflag⟩]
  constructor
  · rw [show get_current_question
        { append_records s q resp (evaluate_comprehensive q resp oracle) with
          has_asked_follow_up := true } = some q from hq]
  · refine ⟨{ append_records s q resp (evaluate_comprehensive q resp oracle) with
        has_asked_follow_up := true }, rfl, rfl, rfl, ?_⟩
    intro resp2 oracle2 e2 fq
    show (submit_answer
        ⟨update_question_performance store q.id
            (evaluate_comprehensive q resp oracle).score none,
          some { append_records s q resp (evaluate_comprehensive q resp oracle) with
                 has_asked_follow_up := true },
          hist⟩ resp2 oracle2).2 ≠
      SubmitResult.follow_up e2 fq
    have hq2 : get_current_question
        { append_records s q resp (evaluate_comprehensive q resp oracle) with
          has_asked_follow_up := true } = some q := hq
    rw [submit_answer_eq _ _ _ q resp2 oracle2 hq2]
    have hnc : ¬ ((evaluate_comprehensive q resp2 oracle2).score < 60 ∧
        (append_records
          { append_records s q resp (evaluate_comprehensive q resp oracle) with
            has_asked_follow_up := true } q resp2
          (evaluate_comprehensive q resp2 oracle2)).has_asked_follow_up = false) := by
      rintro ⟨-, hbad⟩
      simp [append_records] at hbad
    by_cases hend : s.current_question_index + 1 ≥ s.questions.length
    · rw [determine_next_action_complete _
        (append_records
          { append_records s q resp (evaluate_comprehensive q resp oracle) with
            has_asked_follow_up := true } q resp2
          (evaluate_comprehensive q resp2 oracle2)) _ hnc hend]
      simp
    · have hlt : s.current_question_index + 1 < s.questions.length := by omega
      rw [determine_next_action_advance _
        (append_records
          { append_records s q resp (evaluate_comprehensive q resp oracle) with
            has_asked_follow_up := true } q resp2
          (evaluate_comprehensive q resp2 oracle2)) _ hnc hlt]
      simp

/-- Witness for C2: the one-question sample session with an oracle
outage; the fallback scores the answer "no" at 40 < 60. -/
theorem submit_answer_follow_up_once_witness :
    (submit_answer sample_orchestrator "no" (.callFailure "boom")).2 =
      SubmitResult.follow_up
        (evaluate_comprehensive sample_question "no" (.callFailure "boom"))
        (generate_follow_up_question (some sample_question)
          (evaluate_comprehensive sample_question "no" (.callFailure "boom"))) ∧
    ∃ s1, (submit_answer sample_orchestrator "no" (.callFailure "boom")).1.current_interview =
        some s1 ∧
      s1.current_question_index = sample_session.current_question_index ∧
      s1.has_asked_follow_up = true ∧
      ∀ (resp2 : String) (oracle2 : OracleOutcome) (e2 : Evaluation) (fq : Question),
        (submit_answer (submit_answer sample_orchestrator "no"
            (.callFailure "boom")).1 resp2 oracle2).2 ≠
          SubmitResult.follow_up e2 fq := by
  refine submit_answer_follow_up_once sample_orchestrator sample_session sample_question "no"
    (.callFailure "boom") rfl rfl ?_ rfl
  rw [show (evaluate_comprehensive sample_question "no" (.callFailure "boom")).score =
      min ((40:ℚ) +
        (if py_word_count "no" > 30 then 25
         else if py_word_count "no" > 15 then 15
         else if py_word_count "no" > 5 then 10 else 0) +
        (if (excel_functions.filter fun func => py_contains_ci "no" func).isEmpty
         then 0 else 20) +
        (if py_contains "no" "=" || py_contains "no" "()" then 15 else 0)) 100 from rfl]
  norm_num [min_def,
    show py_word_count "no" = 1 from rfl,
    show (excel_functions.filter fun func => py_contains_ci "no" func).isEmpty = true from rfl,
    show py_contains "no" "=" = false from rfl,
    show py_contains "no" "()" = false from rfl]

/-- C10: submit_answer never reads the session status: on a paused
session with a current question it still evaluates the response, appends
the response and evaluation records, updates the store statistics, and
advances or completes as usual. -/
theorem submit_answer_ignores_status
    (st : Orchestrator) (s : Session) (q : Question) (resp : String) (oracle : OracleOutcome)
    (hs : st.current_interview = some s)
    (hstatus : s.status = "paused")
    (hq : get_current_question s = some q) :
    (∀ msg, (submit_answer st resp oracle).2 ≠ SubmitResult.error msg) ∧
    (submit_answer st resp oracle).1.storage_questions =
      update_question_performance st.storage_questions q.id
        (evaluate_comprehensive q resp oracle).score none ∧
    ∃ s1, ((submit_answer st resp oracle).1.current_interview = some s1 ∨
        (submit_answer st resp oracle).1.interview_history =
          st.interview_history ++ [s1]) ∧
      s1.responses = s.responses ++ [⟨q.id, resp⟩] ∧
      s1.evaluations = s.evaluations ++ [evaluate_comprehensive q resp oracle] := by
  obtain ⟨store, cur, hist⟩ := st
  simp only at hs
  subst hs
  rw [submit_answer_eq store s hist q resp oracle hq]
  by_cases hcond : (evaluate_comprehensive q resp oracle).score < 60 ∧
      s.has_asked_follow_up = false
  · rw [determine_next_action_follow_up _
      (append_records s q resp (evaluate_comprehensive q resp oracle)) _ hcond]
    exact ⟨fun msg => by simp, rfl,
      ⟨{ append_records s q resp (evaluate_comprehensive q resp oracle) with
           has_asked_follow_up := true }, Or.inl rfl, rfl, rfl⟩⟩
  · by_cases hend : s.current_question_index + 1 ≥ s.questions.length
    · rw [determine_next_action_complete _
        (append_records s q resp (evaluate_comprehensive q resp oracle)) _ hcond hend]
      exact ⟨fun msg => by simp, rfl,
        ⟨{ append_records s q resp (evaluate_comprehensive q resp oracle) with
             current_question_index := s.current_question_index + 1,
             has_asked_follow_up := false, status := "completed" },
          Or.inr rfl, rfl, rfl⟩⟩
    · have hlt : s.current_question_index + 1 < s.questions.length := by omega
      rw [determine_next_action_advance _
        (append_records s q resp (evaluate_comprehensive q resp oracle)) _ hcond hlt]
      exact ⟨fun msg => by simp, rfl,
        ⟨{ append_records s q resp (evaluate_comprehensive q resp oracle) with
             current_question_index := s.current_question_index + 1,
             has_asked_follow_up := false },
          Or.inl rfl, rfl, rfl⟩⟩

/-- Witness for C10: the paused sample session still processes an
answer submission. -/
theorem submit_answer_ignores_status_witness :
    (∀ msg, (submit_answer paused_orchestrator "no" (.callFailure "boom")).2 ≠
      SubmitResult.error msg) ∧
    (submit_answer paused_orchestrator "no" (.callFailure "boom")).1.storage_questions =
      update_question_performance paused_orchestrator.storage_questions sample_question.id
        (evaluate_comprehensive sample_question "no" (.callFailure "boom")).score none ∧
    ∃ s1, ((submit_answer paused_orchestrator "no"
          (.callFailure "boom")).1.current_interview = some s1 ∨
        (submit_answer paused_orchestrator "no" (.callFailure "boom")).1.interview_history =
          paused_orchestrator.interview_history ++ [s1]) ∧
      s1.responses = paused_session.responses ++ [⟨sample_question.id, "no"⟩] ∧
      s1.evaluations = paused_session.evaluations ++
        [evaluate_comprehensive sample_question "no" (.callFailure "boom")] :=
  submit_answer_ignores_status paused_orchestrator paused_session sample_question "no"
    (.callFailure "boom") rfl rfl rfl
